import Mathlib

/-!
Verification of the windows-system-mcp tool handlers.

A shallow embedding of the pure control flow of the tool handlers in
`src/tools/*.ts` and of the request dispatcher in the server entry point.
External effects (spawned shell commands, `fs` calls) are embedded as
explicit oracle functions, and each handler additionally returns the list
of external command lines (or file paths) it consumed, so that claims of
the form "no external process is invoked" become statements about that list.
JS numbers that are used as integers are embedded as `Nat`/`Int`; the byte
formatter, which divides a byte count by 1024 repeatedly, is embedded over
`ℚ` (every division performed on the inputs considered below is exact in
binary floating point, so the rational model agrees with the JS double model).

The file has two parts: first all definitions (the embedding itself plus
concrete fixtures used in scenarios), then all theorems.
-/

namespace WinSysMcp

/-! ## Network tool (`src/tools/network.ts`) -/

/-- The loop of `expandPortRange`:
`for (let i = start; i <= end && i <= start + 100; i++) ports.push(i.toString())`.
The second loop condition `i <= start + 100` is embedded as the structural
budget argument, which starts at `101` (the number of values of `i` with
`start ≤ i ≤ start + 100`); the first condition `i <= end` is tested as in
the source. -/
def expandPortRangeLoop (stop i : Nat) : Nat → List String
  | 0 => []
  | budget + 1 =>
    if i ≤ stop then toString i :: expandPortRangeLoop stop (i + 1) budget else []

/-- The function `expandPortRange` of `src/tools/network.ts` (lines 297-306),
applied to a range whose two components parsed to the numbers `start` and
`stop`. -/
def expandPortRange (start stop : Nat) : List String :=
  expandPortRangeLoop stop start 101

/-- JS string trimming (the `trim` method), embedded over the character list
of the string (the library `String.trim` is not kernel-reducible, so it is
spelled out here). -/
def trimString (s : String) : String :=
  String.mk (((s.data.dropWhile Char.isWhitespace).reverse.dropWhile
    Char.isWhitespace).reverse)

/-- JS string splitting (the `split` method) with a one-character separator, over the
character list: `"a,b".split(',') = ["a","b"]`, `"".split(',') = [""]`. -/
def splitCharList (sep : Char) : List Char → List (List Char)
  | [] => [[]]
  | c :: cs =>
    if c = sep then [] :: splitCharList sep cs
    else
      match splitCharList sep cs with
      | [] => [[c]]
      | h :: t => (c :: h) :: t

/-- String wrapper around `splitCharList`. -/
def splitChar (s : String) (sep : Char) : List String :=
  (splitCharList sep s.data).map String.mk

/-- JS `parseInt` on an already-trimmed component, restricted to the
all-decimal-digit strings that the port specs of interest consist of; any
other component is reported as `none`, standing for `NaN` (on which the
expansion loop below runs zero iterations, exactly as `i <= NaN` does).
(The prefix parsing that `parseInt` applies to mixed strings such as `"12x"`
is not modelled.) -/
def parseNat? (s : String) : Option Nat :=
  if s.data ≠ [] ∧ s.data.all Char.isDigit then
    some (s.data.foldl (fun n c => n * 10 + (c.toNat - 48)) 0)
  else none

/-- Outcome of one `execAsync` call inside the port scanner: captured stdout,
or a rejection (non-zero exit / timeout). -/
inductive ProbeResult where
  | ok (stdout : String)
  | failed
deriving DecidableEq

/-- The body of the per-port loop of `scanOpenPorts` (lines 255-268): a probe
whose stdout trims to `"True"` is reported open, any other stdout reports
closed/filtered, and a rejected probe is caught and reported timeout/error. -/
def classifyLine (port : String) : ProbeResult → String
  | .ok out =>
    if trimString out = "True" then "✅ Port " ++ port ++ ": Open"
    else "❌ Port " ++ port ++ ": Closed/Filtered"
  | .failed => "❌ Port " ++ port ++ ": Timeout/Error"

/-- The default port list of `scanOpenPorts` (line 246). -/
def defaultPortSpec : String := "80,443,22,21,25,53,110,993,995"

/-- Line 298 of the source — split the range spec on the dash character,
trim and parse the first two components — followed by the expansion loop:
the first two components of the
split are parsed and fed to `expandPortRange`; a component that parses to
`NaN` yields the empty expansion (see `parseNat?`). -/
def expandPortRangeOfSpec (spec : String) : List String :=
  match parseNat? (trimString ((splitChar spec '-').getD 0 "")),
        parseNat? (trimString ((splitChar spec '-').getD 1 "")) with
  | some start, some stop => expandPortRange start stop
  | _, _ => []

/-- Port-list construction of `scanOpenPorts` (lines 249-251): a spec that
contains `-` is expanded as a range, otherwise it is split on commas and each
component trimmed. -/
def portsOfSpec (spec : String) : List String :=
  if spec.data.contains '-' then expandPortRangeOfSpec spec
  else (splitChar spec ',').map trimString

/-- The effective port spec: `if (!portRange) portRange = defaults` — both an
absent argument and the (falsy) empty string fall back to the defaults. -/
def specOf (portRange : Option String) : String :=
  match portRange with
  | none => defaultPortSpec
  | some s => if s = "" then defaultPortSpec else s

/-- The ports actually probed: `ports.slice(0, 20)` (line 255). -/
def scannedPorts (portRange : Option String) : List String :=
  (portsOfSpec (specOf portRange)).take 20

/-- The result lines of `scanOpenPorts` (lines 243-268), with the external
`Test-NetConnection` probe abstracted as the oracle `probe`. One line is
pushed per probed port, in loop order; a rejection of one probe is caught
inside the loop body and so does not affect later iterations. -/
def scanOpenPorts (portRange : Option String) (probe : String → ProbeResult) :
    List String :=
  (scannedPorts portRange).map (fun p => classifyLine p (probe p))

/-! ## Byte-size formatting (`src/tools/system.ts` lines 260-271 and
`src/tools/filesystem.ts` lines 232-243, two textually identical copies).

The JS code runs on doubles; on the byte counts considered in the theorems
below every division by 1024 is exact in binary floating point, so the
formatter is embedded over `ℚ`. -/

/-- The unit-name array of the formatter: B, KB, MB, GB, TB. -/
def units : List String := ["B", "KB", "MB", "GB", "TB"]

/-- The loop `while (size >= 1024 && unitIndex < units.length - 1)
{ size /= 1024; unitIndex++; }`. The condition `unitIndex < 4` is embedded
as the structural `gas` argument, which starts at `4 - unitIndex`
(`gas = 0` exactly when `unitIndex < 4` fails). -/
def formatBytesLoop (size : ℚ) (unitIndex : Nat) : Nat → ℚ × Nat
  | 0 => (size, unitIndex)
  | gas + 1 =>
    if 1024 ≤ size then formatBytesLoop (size / 1024) (unitIndex + 1) gas
    else (size, unitIndex)

/-- The final `size` and `unitIndex` of the formatter loop started from the
raw byte count. -/
def formatBytesPair (bytes : ℚ) : ℚ × Nat := formatBytesLoop bytes 0 4

/-- The digit part of `toFixed2` below: two digits after the point. -/
def padTwo (m : Int) : String := (if m < 10 then "0" else "") ++ toString m

/-- JS `Number.prototype.toFixed(2)` on the exact rational value: the
integer `n` closest to `100 * x`, ties toward the larger `n` (ECMA-262),
i.e. `n = ⌊100 * x + 1/2⌋`, rendered with two digits after the point. The
byte formatter never produces a negative size, so the `-0.00` corner of
`toFixed` is not modelled. -/
def toFixed2 (x : ℚ) : String :=
  let n : Int := ⌊x * 100 + 1 / 2⌋
  if n < 0 then "-" ++ toString ((-n) / 100) ++ "." ++ padTwo ((-n) % 100)
  else toString (n / 100) ++ "." ++ padTwo (n % 100)

/-- The function `formatBytes` of `src/tools/system.ts`: the scaled size
rendered by `toFixed(2)`, a space, and the selected unit name. -/
def formatBytes (bytes : ℚ) : String :=
  let r := formatBytesLoop bytes 0 4
  toFixed2 r.1 ++ " " ++ units.getD r.2 ""

/-- The function `formatFileSize` of `src/tools/filesystem.ts`, the second, textually
identical copy of the formatter. -/
def formatFileSize (bytes : ℚ) : String :=
  let r := formatBytesLoop bytes 0 4
  toFixed2 r.1 ++ " " ++ units.getD r.2 ""

/-! ## Filesystem tool (`src/tools/filesystem.ts`) -/

/-- What `readdir(dirPath, { withFileTypes: true })` reports for an entry:
`isDirectory()`, `isFile()`, or neither (e.g. a symlink). -/
inductive EntryKind where
  | dir
  | file
  | other
deriving DecidableEq

/-- The fields of the per-entry `fs.stat` result that the walker reads:
the size, and the date part of the ISO-rendered modification time. -/
structure EntryStat where
  size : Nat
  mtimeDate : String
deriving DecidableEq

/-- One `readdir` entry together with the outcome of the `fs.stat(fullPath)`
call the walker performs on it (`none` = that stat threw). The stat outcome
is carried on the entry because the walker consults it exactly once per
entry. -/
structure DirEntry where
  name : String
  kind : EntryKind
  stat : Option EntryStat
deriving DecidableEq

/-- The file system as seen by the walker: `readdir(dirPath)` either throws
with a message or returns the entries. The function is arbitrary, so cyclic
structures (symlink loops) are representable. -/
def FileSystem : Type := String → Except String (List DirEntry)

/-- Windows path join, as `path.join(dirPath, item.name)` behaves there. -/
def joinPath (dir name : String) : String := dir ++ "\\" ++ name

/-- The per-entry rendering of `listDirectory` (lines 90-109): a dated line
on stat success (with a formatted size for files, and an empty size field
for non-directories that are not plain files), an "access denied" line when
the per-entry stat throws. -/
def entryLine (item : DirEntry) : String :=
  match item.stat with
  | some st =>
    if item.kind = EntryKind.dir then
      "📁 " ++ item.name ++ "/ (" ++ st.mtimeDate ++ ")"
    else
      "📄 " ++ item.name ++ " (" ++
        (if item.kind = EntryKind.file then formatFileSize (st.size : ℚ) else "") ++
        ", " ++ st.mtimeDate ++ ")"
  | none =>
    if item.kind = EntryKind.dir then "📁 " ++ item.name ++ "/ (access denied)"
    else "📄 " ++ item.name ++ " (access denied)"

/-- One step of the partition loop of lines 90-109: a directory entry is
pushed onto the `directories` array, every other entry onto `files`. -/
def partitionStep (acc : List String × List String) (item : DirEntry) :
    List String × List String :=
  if item.kind = EntryKind.dir then (acc.1 ++ [entryLine item], acc.2)
  else (acc.1, acc.2 ++ [entryLine item])

/-- The `directories` and `files` arrays after the loop over `items`. -/
def partitionEntries (items : List DirEntry) : List String × List String :=
  items.foldl partitionStep ([], [])

/-- The non-recursive part of the listing (lines 85 and 111-112): header,
then the `Directories` section, then the `Files` section, with the lines of
each section joined with newlines in loop order. -/
def renderBase (dirPath : String) (items : List DirEntry) : String :=
  "# Directory Listing: " ++ dirPath ++ "\n\n" ++
    "## Directories:\n" ++ String.intercalate "\n" (partitionEntries items).1 ++
    "\n\n" ++
    "## Files:\n" ++ String.intercalate "\n" (partitionEntries items).2

/-- The walk without any recursive section: what `listDirectory` produces
whenever the guard `recursive && maxDepth > 0` fails — the `readdir`
failure is rethrown as `Cannot list directory ...`, a success renders the
two sections. -/
def listDirectoryBase (fs : FileSystem) (dirPath : String) :
    Except String String :=
  match fs dirPath with
  | .error m => .error ("Cannot list directory " ++ dirPath ++ ": " ++ m)
  | .ok items => .ok (renderBase dirPath items)

/-- The recursive walker `listDirectory` (lines 82-135), with the depth
argument embedded structurally as `maxDepth.toNat` (the guard
`recursive && maxDepth > 0` and the recursive depth `maxDepth - 1` become
the pattern `dSub + 1, true` and the call at `dSub`; the `Int`-level facade
`listDirectory` below restores the JS signature). A recursive call that
throws — i.e. whose own `readdir` failed — is caught in the loop and
rendered as an "access denied" subsection heading; the outer `readdir`
failure itself is rethrown as in `listDirectoryBase`. -/
def listDirectoryGo (fs : FileSystem) : Nat → Bool → String → Except String String
  | 0, _, dirPath => listDirectoryBase fs dirPath
  | _ + 1, false, dirPath => listDirectoryBase fs dirPath
  | dSub + 1, true, dirPath =>
    match fs dirPath with
    | .error m => .error ("Cannot list directory " ++ dirPath ++ ": " ++ m)
    | .ok items =>
      .ok (renderBase dirPath items ++ "\n\n## Subdirectories (recursive):\n" ++
        String.join (items.map (fun item =>
          if item.kind = EntryKind.dir then
            match listDirectoryGo fs dSub true (joinPath dirPath item.name) with
            | .ok sub => "\n### " ++ item.name ++ "/\n" ++ sub ++ "\n"
            | .error _ => "\n### " ++ item.name ++ "/ (access denied)\n"
          else "")))

/-- The subdirectory sections appended when the walker recurses, named so
the theorems can speak about them; identical to the inline expression in
`listDirectoryGo`. -/
def subdirSections (fs : FileSystem) (dirPath : String) (items : List DirEntry)
    (d : Nat) : String :=
  String.join (items.map (fun item =>
    if item.kind = EntryKind.dir then
      match listDirectoryGo fs d true (joinPath dirPath item.name) with
      | .ok sub => "\n### " ++ item.name ++ "/\n" ++ sub ++ "\n"
      | .error _ => "\n### " ++ item.name ++ "/ (access denied)\n"
    else ""))

/-- The entry point `listDirectory(dirPath, recursive = false, maxDepth = 3)`
with the JS number depth embedded as `Int`: the walker recurses only while
`maxDepth > 0` and then passes `maxDepth - 1`, so its behaviour is a
function of `maxDepth.toNat`. -/
def listDirectory (fs : FileSystem) (dirPath : String) (recursive : Bool)
    (maxDepth : Int) : Except String String :=
  listDirectoryGo fs maxDepth.toNat recursive dirPath

/-- Scenario fixture: a directory `C:\data` with two subfolders and one
file; every other path (in particular the two subfolders) fails to read. -/
def sampleEntries : List DirEntry :=
  [⟨"docs", EntryKind.dir, some ⟨0, "2024-01-01"⟩⟩,
   ⟨"tools", EntryKind.dir, some ⟨0, "2024-01-02"⟩⟩,
   ⟨"readme.txt", EntryKind.file, some ⟨512, "2024-01-03"⟩⟩]

/-- The fixture file system for the scenarios. -/
def sampleFS : FileSystem := fun p =>
  if p = "C:\\data" then .ok sampleEntries else .error "EACCES"

/-- A cyclic directory structure: every directory contains one
subdirectory, forever (a symlink loop). -/
def cycFS : FileSystem := fun _ => .ok [⟨"loop", EntryKind.dir, none⟩]

/-! ## Response envelopes and dispatch (server entry point and the `run`
method of each tool) -/

/-- The outcome of one tool call: a normal text response, an
`isError: true` text response, or an exception escaping the handler
(which the protocol layer outside this repository reports as an error). -/
inductive ToolResponse where
  | success (text : String)
  | failure (text : String)
  | thrown (msg : String)
deriving DecidableEq

/-- A handler outcome together with the external command lines (or read
file paths) it consumed, so that "no external process is invoked" is a
statement about the second component. -/
structure RunResult where
  response : ToolResponse
  commands : List String
deriving DecidableEq

/-- The action enum of the `filesystem` tool. -/
def fileSystemActions : List String :=
  ["list_directory", "read_file", "search_files", "get_file_info",
   "find_large_files", "get_disk_usage"]

/-- The action enum of the `process_manager` tool. -/
def processManagerActions : List String :=
  ["list_processes", "get_process_details", "kill_process", "find_process",
   "get_top_processes", "get_process_tree"]

/-- The action enum of the `system_info` tool. -/
def systemInfoActions : List String :=
  ["get_system_overview", "get_hardware_info", "get_os_info",
   "get_environment_vars", "get_installed_software", "get_system_uptime",
   "get_user_info", "get_system_paths"]

/-- The action enum of the `registry` tool. -/
def registryActions : List String :=
  ["read_key", "read_value", "search_keys", "list_subkeys",
   "get_startup_programs", "get_installed_programs",
   "get_system_info_from_registry"]

/-- The action enum of the `service_manager` tool. -/
def serviceManagerActions : List String :=
  ["list_services", "get_service_details", "start_service", "stop_service",
   "restart_service", "get_service_status", "find_service",
   "get_running_services", "get_startup_services"]

/-- The action enum of the `network` tool. -/
def networkActions : List String :=
  ["get_network_adapters", "get_active_connections", "get_listening_ports",
   "get_routing_table", "ping_host", "trace_route", "get_dns_info",
   "get_network_statistics", "scan_open_ports", "get_wifi_profiles"]

/-- The action enum of the `performance` tool. -/
def performanceActions : List String :=
  ["get_cpu_usage", "get_memory_usage", "get_disk_usage", "get_disk_io",
   "get_network_io", "get_system_performance", "get_top_processes_by_cpu",
   "get_top_processes_by_memory", "get_performance_counters",
   "monitor_real_time"]

/-- The tool names that the `CallToolRequestSchema` switch of the server
recognises, in switch order. -/
def toolNames : List String :=
  ["filesystem", "process_manager", "system_info", "registry",
   "service_manager", "network", "performance"]

/-- The enumerated action set of each registered tool (the `run` switch of
each tool has exactly one case per enum member). -/
def actionsOf (tool : String) : List String :=
  if tool = "filesystem" then fileSystemActions
  else if tool = "process_manager" then processManagerActions
  else if tool = "system_info" then systemInfoActions
  else if tool = "registry" then registryActions
  else if tool = "service_manager" then serviceManagerActions
  else if tool = "network" then networkActions
  else if tool = "performance" then performanceActions
  else []

/-- The text that the catch block of each tool prepends to an escaping
error. -/
def failTagOf (tool : String) : String :=
  if tool = "filesystem" then "❌ File system operation failed: "
  else if tool = "process_manager" then "❌ Process management operation failed: "
  else if tool = "system_info" then "❌ System information operation failed: "
  else if tool = "registry" then "❌ Registry operation failed: "
  else if tool = "service_manager" then "❌ Service management operation failed: "
  else if tool = "network" then "❌ Network operation failed: "
  else if tool = "performance" then "❌ Performance monitoring operation failed: "
  else ""

/-- The try/catch plus action switch shared by the `run` method of every
tool: a known action runs its handler (an error thrown by the handler is
converted by the catch into an `isError` response tagged with the failure
text of the tool); an unknown action hits the default case, which throws
`Unknown action: ...` before any handler — hence any external command —
is reached. -/
def runTool (actions : List String) (failTag : String)
    (handler : String → RunResult) (action : String) : RunResult :=
  if action ∈ actions then
    match handler action with
    | ⟨.thrown m, cmds⟩ => ⟨.failure (failTag ++ m), cmds⟩
    | r => r
  else ⟨.failure (failTag ++ "Unknown action: " ++ action), []⟩

/-- The `CallToolRequestSchema` handler of the server: a switch on the tool
name dispatching to the `run` method of that tool; the default throws
`Unknown tool: ...`
without invoking any tool. `handlers` abstracts the per-tool action handler
bodies — the dispatch claims hold for every such body. -/
def callTool (handlers : String → String → RunResult) (tool action : String) :
    RunResult :=
  if tool ∈ toolNames then
    runTool (actionsOf tool) (failTagOf tool) (handlers tool) action
  else ⟨.thrown ("Unknown tool: " ++ tool), []⟩

/-- Modelled from the spec: the protocol layer (the MCP SDK server, not
not among the sources of this repository) reports an exception thrown by
the request handler as a failure response carrying the message of the
exception. -/
def protocolResponse : RunResult → RunResult
  | ⟨.thrown m, cmds⟩ => ⟨.failure m, cmds⟩
  | r => r

/-! ## Process manager handlers (`src/tools/system.ts` lines 381-439) -/

/-- Outcome of one `execAsync` call: captured stdout or a rejection with a
message. -/
inductive ExecOutcome where
  | ok (stdout : String)
  | failed (msg : String)

/-- The external process invoker. -/
def Exec : Type := String → ExecOutcome

/-- The full command line: the PowerShell invocation wrapping the given
command in double quotes. -/
def psCommand (c : String) : String := "powershell -Command \"" ++ c ++ "\""

/-- JS truthiness of an optional number (`if (processId)`): `undefined`
and `0` are falsy (`NaN` is not representable here). -/
def numTruthy : Option Int → Bool
  | none => false
  | some n => n != 0

/-- JS truthiness of an optional string (`else if (processName)`):
`undefined` and `""` are falsy. -/
def strTruthy : Option String → Bool
  | none => false
  | some s => s != ""

/-- A single-quote character, as it appears in the WMI filter literal. -/
def sq : String := Char.toString '\x27'

/-- The handler `killProcess` (lines 413-439): a truthy `process_id` targets the PID, a
truthy `process_name` targets the name, otherwise the handler throws the
missing-parameter error; the catch wraps every escaping error in
`Failed to kill process: ...`. -/
def killProcess (exec : Exec) (processId : Option Int)
    (processName : Option String) : ToolResponse × List String :=
  if numTruthy processId then
    let pid := toString (processId.getD 0)
    let cmd := psCommand ("Stop-Process -Id " ++ pid ++ " -Force -ErrorAction Stop")
    match exec cmd with
    | .ok _ =>
      (.success ("# Process Terminated\n\n✅ Successfully terminated PID " ++ pid),
       [cmd])
    | .failed m => (.thrown ("Failed to kill process: " ++ m), [cmd])
  else if strTruthy processName then
    let nm := processName.getD ""
    let cmd := psCommand ("Stop-Process -Name \"" ++ nm ++ "\" -Force -ErrorAction Stop")
    match exec cmd with
    | .ok _ =>
      (.success ("# Process Terminated\n\n✅ Successfully terminated process \"" ++
        nm ++ "\""), [cmd])
    | .failed m => (.thrown ("Failed to kill process: " ++ m), [cmd])
  else
    (.thrown ("Failed to kill process: " ++
      "Either process_id or process_name must be provided"), [])

/-- The two sequential `execAsync` calls of `getProcessDetails` once the
identifying commands have been chosen, with the catch wrapping failures in
`Failed to get process details: ...`. -/
def runDetails (exec : Exec) (cmd1 cmd2 : String) : ToolResponse × List String :=
  let c1 := psCommand cmd1
  match exec c1 with
  | .failed m => (.thrown ("Failed to get process details: " ++ m), [c1])
  | .ok out1 =>
    let c2 := psCommand cmd2
    match exec c2 with
    | .failed m => (.thrown ("Failed to get process details: " ++ m), [c1, c2])
    | .ok out2 =>
      (.success ("# Process Details\n\n## Basic Information\n```\n" ++ out1 ++
        "\n```\n\n## Extended Information\n```\n" ++ out2 ++ "\n```"),
       [c1, c2])

/-- The handler `getProcessDetails` (lines 381-411): a truthy `process_id` queries by
PID, a truthy `process_name` by name (the WMI filter appends `.exe`),
otherwise the handler throws the missing-parameter error. -/
def getProcessDetails (exec : Exec) (processId : Option Int)
    (processName : Option String) : ToolResponse × List String :=
  if numTruthy processId then
    let pid := toString (processId.getD 0)
    runDetails exec
      ("Get-Process -Id " ++ pid ++ " -ErrorAction Stop | Select-Object *")
      ("Get-WmiObject -Class Win32_Process -Filter \"ProcessId=" ++ pid ++
        "\" | Select-Object CommandLine, CreationDate, ExecutablePath, PageFileUsage, ThreadCount")
  else if strTruthy processName then
    let nm := processName.getD ""
    runDetails exec
      ("Get-Process -Name \"" ++ nm ++ "\" -ErrorAction Stop | Select-Object *")
      ("Get-WmiObject -Class Win32_Process -Filter \"Name=" ++ sq ++ nm ++
        ".exe" ++ sq ++ "\" | Select-Object CommandLine, CreationDate, ExecutablePath, PageFileUsage, ThreadCount")
  else
    (.thrown ("Failed to get process details: " ++
      "Either process_id or process_name must be provided"), [])

/-- The arguments of a `process_manager` request consumed by the handlers
modelled here. -/
structure ProcessArgs where
  action : String
  process_id : Option Int
  process_name : Option String

/-- The method `processManagerTool.run` (lines 325-360): the switch forwards
`get_process_details` and `kill_process` to their handlers (`other`
abstracts the remaining enumerated actions), the default throws
`Unknown action: ...`, and the catch turns escaping errors into `isError`
responses tagged `❌ Process management operation failed: `. -/
def processManagerRun (exec : Exec)
    (other : String → ToolResponse × List String) (args : ProcessArgs) :
    RunResult :=
  let r : ToolResponse × List String :=
    if args.action = "get_process_details" then
      getProcessDetails exec args.process_id args.process_name
    else if args.action = "kill_process" then
      killProcess exec args.process_id args.process_name
    else if args.action ∈ processManagerActions then other args.action
    else (.thrown ("Unknown action: " ++ args.action), [])
  match r with
  | (.thrown m, cmds) =>
    ⟨.failure ("❌ Process management operation failed: " ++ m), cmds⟩
  | (resp, cmds) => ⟨resp, cmds⟩

/-! ## `readFile` of the filesystem tool (`src/tools/filesystem.ts`
lines 137-158) -/

/-- The fields of the `fs.stat` result that `readFile` consults. -/
structure FileStat where
  isDirectory : Bool
  size : Nat

/-- The handler `readFile`: stat the path (a stat failure is rethrown wrapped), reject
directories, reject files strictly larger than `1024 * 1024` bytes, and
only then read the content. The second component lists the paths whose
content was actually read. -/
def readFile (fsStat : String → Except String FileStat)
    (fsRead : String → Except String String) (filePath : String) :
    ToolResponse × List String :=
  match fsStat filePath with
  | .error m => (.thrown ("Cannot read file " ++ filePath ++ ": " ++ m), [])
  | .ok st =>
    if st.isDirectory then
      (.thrown ("Cannot read file " ++ filePath ++
        ": Path is a directory, not a file"), [])
    else if 1024 * 1024 < st.size then
      (.thrown ("Cannot read file " ++ filePath ++
        ": File too large (>1MB). Use file info to check size first."), [])
    else
      match fsRead filePath with
      | .error m => (.thrown ("Cannot read file " ++ filePath ++ ": " ++ m), [filePath])
      | .ok content =>
        (.success ("# File Content: " ++ filePath ++ "\n\n```\n" ++ content ++
          "\n```"), [filePath])

/-- The method `fileSystemTool.run` (lines 46-80) restricted to the dispatch
structure, with `read_file` wired to its handler and the other enumerated
actions abstracted by `other`. -/
def fileSystemRun (fsStat : String → Except String FileStat)
    (fsRead : String → Except String String)
    (other : String → ToolResponse × List String) (action filePath : String) :
    RunResult :=
  let r : ToolResponse × List String :=
    if action = "read_file" then readFile fsStat fsRead filePath
    else if action ∈ fileSystemActions then other action
    else (.thrown ("Unknown action: " ++ action), [])
  match r with
  | (.thrown m, cmds) =>
    ⟨.failure ("❌ File system operation failed: " ++ m), cmds⟩
  | (resp, cmds) => ⟨resp, cmds⟩

/-- Fixture: a stat oracle that reports every path as a directory. -/
def dirStatFS : String → Except String FileStat := fun _ => .ok ⟨true, 0⟩

/-- Fixture: a stat oracle that reports every path as a 2 MiB file. -/
def bigStatFS : String → Except String FileStat := fun _ => .ok ⟨false, 2097152⟩

/-- Fixture: a content oracle with empty files. -/
def emptyReadFS : String → Except String String := fun _ => .ok ""

end WinSysMcp

namespace WinSysMcpClaims

open WinSysMcp

/-- Closed form of the expansion loop: the ports `i, i+1, ...` as long as
both the bound `stop` and the remaining budget allow. -/
theorem expandPortRangeLoop_eq (stop : Nat) :
    ∀ (budget i : Nat), expandPortRangeLoop stop i budget =
      (List.range (min (stop + 1 - i) budget)).map (fun k => toString (i + k)) := by
  intro budget
  induction budget with
  | zero => intro i; simp [expandPortRangeLoop]
  | succ b ih =>
    intro i
    rw [expandPortRangeLoop]
    by_cases h : i ≤ stop
    · rw [if_pos h, ih (i + 1)]
      have hmin : min (stop + 1 - i) (b + 1) = min (stop + 1 - (i + 1)) b + 1 := by omega
      rw [hmin, List.range_succ_eq_map, List.map_cons, List.map_map]
      refine congrArg₂ _ (by simp) ?_
      refine List.map_congr_left fun k _ => ?_
      simp only [Function.comp]
      exact congrArg toString (by omega)
    · rw [if_neg h]
      have hmin : min (stop + 1 - i) (b + 1) = 0 := by omega
      rw [hmin]
      simp

/-- C1: for every port range `start-end` with `start ≤ end`, the expansion
used by `scan_open_ports` yields exactly `min (end - start + 1) 101` ports,
beginning at `start` and ascending consecutively; in particular `"80-443"`
expands to exactly 101 ports starting at 80. -/
theorem port_range_expansion_capped (start stop : Nat) (h : start ≤ stop) :
    expandPortRange start stop =
      (List.range (min (stop - start + 1) 101)).map (fun k => toString (start + k)) ∧
    (expandPortRange start stop).length = min (stop - start + 1) 101 ∧
    (expandPortRange 80 443).length = 101 ∧
    (expandPortRange 80 443).head? = some "80" := by
  have hgen : ∀ a b : Nat, expandPortRange a b =
      (List.range (min (b + 1 - a) 101)).map (fun k => toString (a + k)) := fun a b =>
    expandPortRangeLoop_eq b 101 a
  refine ⟨?_, ?_, ?_, ?_⟩
  · rw [hgen start stop]
    have : stop + 1 - start = stop - start + 1 := by omega
    rw [this]
  · rw [hgen start stop]
    simp only [List.length_map, List.length_range]
    omega
  · rw [hgen 80 443]
    simp
  · rw [hgen 80 443]
    rfl

/-- Witness for C1 at the concrete range `80-443`. -/
theorem port_range_expansion_capped_witness :
    expandPortRange 80 443 =
      (List.range (min (443 - 80 + 1) 101)).map (fun k => toString (80 + k)) ∧
    (expandPortRange 80 443).length = min (443 - 80 + 1) 101 ∧
    (expandPortRange 80 443).length = 101 ∧
    (expandPortRange 80 443).head? = some "80" :=
  port_range_expansion_capped 80 443 (by decide)

/-- C2: the prober probes at most the first 20 ports of the expanded
sequence, produces exactly one classification line per probed port in
sequence order (pointwise in the probe oracle, so the failure of one port cannot
abort the others), and for `port_range = "1-500"` the probed ports are
exactly `1..20` in ascending order. -/
theorem scan_probe_truncation (portRange : Option String)
    (probe : String → ProbeResult) :
    (scanOpenPorts portRange probe).length ≤ 20 ∧
    (scanOpenPorts portRange probe).length = (scannedPorts portRange).length ∧
    (∀ k : Nat, (scanOpenPorts portRange probe)[k]? =
      ((scannedPorts portRange)[k]?).map (fun p => classifyLine p (probe p))) ∧
    scannedPorts (some "1-500") = (List.range 20).map (fun k => toString (1 + k)) := by
  refine ⟨?_, ?_, ?_, ?_⟩
  · calc (scanOpenPorts portRange probe).length
        = (scannedPorts portRange).length := List.length_map _ _
      _ ≤ 20 := by
          rw [scannedPorts, List.length_take]
          omega
  · exact List.length_map _ _
  · intro k
    exact List.getElem?_map _ _ _
  · decide

/-- Folding string concatenation: the accumulator can be pulled out. -/
theorem stringFoldl_append (l : List String) :
    ∀ a : String, l.foldl (· ++ ·) a = a ++ l.foldl (· ++ ·) "" := by
  induction l with
  | nil => intro a; simp
  | cons b l ih =>
    intro a
    rw [List.foldl_cons, ih (a ++ b), List.foldl_cons, ih ("" ++ b)]
    simp [String.append_assoc]

/-- The function `String.join` unfolds on a cons cell. -/
theorem stringJoin_cons (a : String) (l : List String) :
    String.join (a :: l) = a ++ String.join l := by
  show List.foldl (· ++ ·) "" (a :: l) = _
  rw [List.foldl_cons, stringFoldl_append]
  simp
  rfl

/-- With the guard `recursive && maxDepth > 0` satisfied and `readdir`
succeeding, the walker appends the subdirectory sections at depth `d`. -/
theorem listDirectoryGo_succ_true (fs : FileSystem) (d : Nat) (p : String)
    (items : List DirEntry) (h : fs p = .ok items) :
    listDirectoryGo fs (d + 1) true p =
      .ok (renderBase p items ++ "\n\n## Subdirectories (recursive):\n" ++
        subdirSections fs p items d) := by
  simp only [listDirectoryGo, h]
  rfl

/-- With zero depth the walker never recurses. -/
theorem listDirectoryGo_zero (fs : FileSystem) (r : Bool) (p : String) :
    listDirectoryGo fs 0 r p = listDirectoryBase fs p := rfl

/-- With the `recursive` flag off the walker never recurses. -/
theorem listDirectoryGo_false (fs : FileSystem) (d : Nat) (p : String) :
    listDirectoryGo fs d false p = listDirectoryBase fs p := by
  cases d <;> rfl

/-- Whenever `readdir` on the requested directory succeeds, the walker
returns a successful listing — stat failures and failing recursive calls
are absorbed along the way. -/
theorem listDirectoryGo_ok (fs : FileSystem) (d : Nat) (r : Bool) (p : String)
    (items : List DirEntry) (h : fs p = .ok items) :
    ∃ s, listDirectoryGo fs d r p = .ok s := by
  cases d with
  | zero =>
    rw [listDirectoryGo_zero, listDirectoryBase, h]
    exact ⟨_, rfl⟩
  | succ dSub =>
    cases r with
    | false =>
      rw [listDirectoryGo_false, listDirectoryBase, h]
      exact ⟨_, rfl⟩
    | true => exact ⟨_, listDirectoryGo_succ_true fs dSub p items h⟩

/-- C3: for `maxDepth ≤ 0` the walker performs no recursion regardless of
the `recursive` flag; when it does recurse it does so at depth
`maxDepth - 1`, which is strictly smaller, so the walk is bounded by the
initial depth and terminates on every file system — in particular on a
cyclic one, at every depth. -/
theorem walker_depth_guard :
    (∀ (fs : FileSystem) (p : String) (r : Bool) (maxDepth : Int),
        maxDepth ≤ 0 → listDirectory fs p r maxDepth = listDirectoryBase fs p) ∧
    (∀ (fs : FileSystem) (p : String) (maxDepth : Int) (items : List DirEntry),
        0 < maxDepth → fs p = .ok items →
        listDirectory fs p true maxDepth =
          .ok (renderBase p items ++ "\n\n## Subdirectories (recursive):\n" ++
            subdirSections fs p items (maxDepth - 1).toNat)) ∧
    (∀ maxDepth : Int, 0 < maxDepth → (maxDepth - 1).toNat < maxDepth.toNat) ∧
    (∀ maxDepth : Int, ∃ s, listDirectory cycFS "C:" true maxDepth = .ok s) := by
  refine ⟨?_, ?_, ?_, ?_⟩
  · intro fs p r maxDepth h
    rw [listDirectory]
    have : maxDepth.toNat = 0 := by omega
    rw [this]
    exact listDirectoryGo_zero fs r p
  · intro fs p maxDepth items hpos h
    rw [listDirectory]
    have : maxDepth.toNat = (maxDepth - 1).toNat + 1 := by omega
    rw [this]
    exact listDirectoryGo_succ_true fs _ p items h
  · intro maxDepth h
    omega
  · intro maxDepth
    exact listDirectoryGo_ok cycFS maxDepth.toNat true "C:" _ rfl

/-- Witness for C3: depth `-2` walks without recursion, depth `3` recurses
at depth `2`, and the cyclic file system is walked to completion. -/
theorem walker_depth_guard_witness :
    listDirectory cycFS "C:" true (-2) = listDirectoryBase cycFS "C:" ∧
    ((3 : Int) - 1).toNat < (3 : Int).toNat ∧
    (∃ s, listDirectory cycFS "C:" true 7 = .ok s) ∧
    listDirectory cycFS "C:" true 3 =
      .ok (renderBase "C:" [⟨"loop", EntryKind.dir, none⟩] ++
        "\n\n## Subdirectories (recursive):\n" ++
        subdirSections cycFS "C:" [⟨"loop", EntryKind.dir, none⟩]
          ((3 : Int) - 1).toNat) :=
  ⟨walker_depth_guard.1 cycFS "C:" true (-2) (by decide),
   walker_depth_guard.2.2.1 3 (by decide),
   walker_depth_guard.2.2.2 7,
   walker_depth_guard.2.1 cycFS "C:" 3 [⟨"loop", EntryKind.dir, none⟩]
     (by decide) rfl⟩

/-- C4: per-entry stat failures mark only the failing entry as access
denied (readable siblings keep their dated lines, and the partition still
emits exactly one line per entry); a recursive call that fails outright is
rendered as an access-denied heading for that subdirectory only, with the
remaining siblings still walked; and the overall request succeeds whenever
the requested directory itself is readable. -/
theorem walker_partial_failure :
    (∀ item : DirEntry, item.stat = none →
      entryLine item =
        (if item.kind = EntryKind.dir then "📁 " ++ item.name ++ "/ (access denied)"
         else "📄 " ++ item.name ++ " (access denied)")) ∧
    (∀ (item : DirEntry) (st : EntryStat), item.stat = some st →
      entryLine item =
        (if item.kind = EntryKind.dir then
          "📁 " ++ item.name ++ "/ (" ++ st.mtimeDate ++ ")"
         else
          "📄 " ++ item.name ++ " (" ++
            (if item.kind = EntryKind.file then formatFileSize (st.size : ℚ) else "") ++
            ", " ++ st.mtimeDate ++ ")")) ∧
    (∀ items : List DirEntry,
      (partitionEntries items).1.length + (partitionEntries items).2.length =
        items.length) ∧
    (∀ (fs : FileSystem) (p : String) (item : DirEntry) (rest : List DirEntry)
        (d : Nat) (e : String), item.kind = EntryKind.dir →
      listDirectoryGo fs d true (joinPath p item.name) = .error e →
      subdirSections fs p (item :: rest) d =
        ("\n### " ++ item.name ++ "/ (access denied)\n") ++
          subdirSections fs p rest d) ∧
    (∀ (fs : FileSystem) (p : String) (r : Bool) (maxDepth : Int)
        (items : List DirEntry), fs p = .ok items →
      ∃ s, listDirectory fs p r maxDepth = .ok s) := by
  refine ⟨?_, ?_, ?_, ?_, ?_⟩
  · intro item h
    rw [entryLine, h]
  · intro item st h
    rw [entryLine, h]
  · intro items
    have key : ∀ (l : List DirEntry) (acc : List String × List String),
        (l.foldl partitionStep acc).1.length + (l.foldl partitionStep acc).2.length =
          acc.1.length + acc.2.length + l.length := by
      intro l
      induction l with
      | nil => intro acc; simp
      | cons a t ih =>
        intro acc
        rw [List.foldl_cons, ih]
        by_cases h : a.kind = EntryKind.dir <;>
          simp [partitionStep, h] <;> omega
    have := key items ([], [])
    simpa [partitionEntries] using this
  · intro fs p item rest d e hkind herr
    rw [subdirSections, List.map_cons, stringJoin_cons, if_pos hkind, herr]
    rfl
  · intro fs p r maxDepth items h
    exact listDirectoryGo_ok fs maxDepth.toNat r p items h

/-- Witness for C4 on the fixture: the failing-stat entry renders as access
denied, a normal entry keeps its dated line, the partition is exhaustive,
the unreadable `docs` subdirectory renders as an access-denied heading while
its sibling is still processed, and the listing of `C:\data` succeeds. -/
theorem walker_partial_failure_witness :
    entryLine ⟨"secret", EntryKind.dir, none⟩ = "📁 secret/ (access denied)" ∧
    entryLine ⟨"docs", EntryKind.dir, some ⟨0, "2024-01-01"⟩⟩ =
      "📁 docs/ (2024-01-01)" ∧
    (partitionEntries sampleEntries).1.length +
      (partitionEntries sampleEntries).2.length = sampleEntries.length ∧
    subdirSections sampleFS "C:\\data"
        (⟨"docs", EntryKind.dir, some ⟨0, "2024-01-01"⟩⟩ ::
          [⟨"tools", EntryKind.dir, some ⟨0, "2024-01-02"⟩⟩]) 0 =
      "\n### docs/ (access denied)\n" ++
        subdirSections sampleFS "C:\\data"
          [⟨"tools", EntryKind.dir, some ⟨0, "2024-01-02"⟩⟩] 0 ∧
    (∃ s, listDirectory sampleFS "C:\\data" true 3 = .ok s) := by
  refine ⟨walker_partial_failure.1 ⟨"secret", EntryKind.dir, none⟩ rfl, ?_, ?_, ?_, ?_⟩
  · exact walker_partial_failure.2.1 ⟨"docs", EntryKind.dir, some ⟨0, "2024-01-01"⟩⟩
      ⟨0, "2024-01-01"⟩ rfl
  · exact walker_partial_failure.2.2.1 sampleEntries
  · exact walker_partial_failure.2.2.2.1 sampleFS "C:\\data"
      ⟨"docs", EntryKind.dir, some ⟨0, "2024-01-01"⟩⟩
      [⟨"tools", EntryKind.dir, some ⟨0, "2024-01-02"⟩⟩] 0
      "Cannot list directory C:\\data\\docs: EACCES" rfl rfl
  · exact walker_partial_failure.2.2.2.2 sampleFS "C:\\data" true 3 sampleEntries
      rfl

/-- The two partition arrays in closed form: the directory lines are the
directory entries in enumeration order, the file lines the remaining
entries in enumeration order — no additional sorting. -/
theorem partitionEntries_eq (items : List DirEntry) :
    partitionEntries items =
      ((items.filter fun i => decide (i.kind = EntryKind.dir)).map entryLine,
       (items.filter fun i => !decide (i.kind = EntryKind.dir)).map entryLine) := by
  have key : ∀ (l : List DirEntry) (acc : List String × List String),
      l.foldl partitionStep acc =
        (acc.1 ++ (l.filter fun i => decide (i.kind = EntryKind.dir)).map entryLine,
         acc.2 ++ (l.filter fun i => !decide (i.kind = EntryKind.dir)).map entryLine) := by
    intro l
    induction l with
    | nil => intro acc; simp
    | cons a t ih =>
      intro acc
      rw [List.foldl_cons, ih]
      by_cases h : a.kind = EntryKind.dir <;> simp [partitionStep, h]
  have := key items ([], [])
  simpa [partitionEntries] using this

/-- C7: the listing always renders the `Directories` section before the
`Files` section, each holding the corresponding entries in exactly the
enumeration order; a non-recursive request on a directory with two
subfolders and one file yields two directory lines, one file line, and no
recursive subsection (the response is exactly the base listing). -/
theorem listing_section_order :
    (∀ items : List DirEntry,
      partitionEntries items =
        ((items.filter fun i => decide (i.kind = EntryKind.dir)).map entryLine,
         (items.filter fun i => !decide (i.kind = EntryKind.dir)).map entryLine)) ∧
    (∀ (p : String) (items : List DirEntry),
      renderBase p items =
        "# Directory Listing: " ++ p ++ "\n\n" ++
          "## Directories:\n" ++
          String.intercalate "\n" (partitionEntries items).1 ++ "\n\n" ++
          "## Files:\n" ++
          String.intercalate "\n" (partitionEntries items).2) ∧
    listDirectory sampleFS "C:\\data" false 3 =
      .ok (renderBase "C:\\data" sampleEntries) ∧
    (partitionEntries sampleEntries).1.length = 2 ∧
    (partitionEntries sampleEntries).2.length = 1 := by
  refine ⟨partitionEntries_eq, fun p items => rfl, ?_, ?_, ?_⟩
  · rw [listDirectory]
    have h3 : (3 : Int).toNat = 3 := rfl
    rw [h3, listDirectoryGo_false]
    rw [listDirectoryBase]
    have h : sampleFS "C:\\data" = .ok sampleEntries := rfl
    rw [h]
  · rw [partitionEntries_eq]
    decide
  · rw [partitionEntries_eq]
    decide

/-- The formatter loop returns immediately once the size is below 1024. -/
theorem formatBytesLoop_stop (size : ℚ) (unitIndex gas : Nat)
    (h : size < 1024) : formatBytesLoop size unitIndex gas = (size, unitIndex) := by
  cases gas with
  | zero => rfl
  | succ g => simp [formatBytesLoop, not_le.2 h]

/-- The formatter loop scales once while the size is at least 1024 and a
unit remains. -/
theorem formatBytesLoop_step (size : ℚ) (unitIndex gas : Nat)
    (h : 1024 ≤ size) :
    formatBytesLoop size unitIndex (gas + 1) =
      formatBytesLoop (size / 1024) (unitIndex + 1) gas := by
  simp [formatBytesLoop, h]

/-- Characterisation of the formatter loop: it divides by `1024` exactly
`k` times, where `k` is minimal with the scaled value below 1024 unless the
gas (the remaining units) runs out first. -/
theorem formatBytesLoop_exists (gas : Nat) :
    ∀ (size : ℚ) (unitIndex : Nat),
      ∃ k : Nat, k ≤ gas ∧
        formatBytesLoop size unitIndex gas = (size / 1024 ^ k, unitIndex + k) ∧
        (size / 1024 ^ k < 1024 ∨ k = gas) ∧
        ∀ j : Nat, j < k → 1024 ≤ size / 1024 ^ j := by
  induction gas with
  | zero =>
    intro size u
    exact ⟨0, Nat.le_refl 0, by simp [formatBytesLoop], Or.inr rfl, by omega⟩
  | succ g ih =>
    intro size u
    by_cases h : 1024 ≤ size
    · obtain ⟨k, hk, heq, hcond, hmin⟩ := ih (size / 1024) (u + 1)
      have hpow : size / 1024 / 1024 ^ k = size / 1024 ^ (k + 1) := by
        rw [pow_succ, div_div, mul_comm]
      refine ⟨k + 1, by omega, ?_, ?_, ?_⟩
      · rw [formatBytesLoop_step size u g h, heq, hpow]
        refine congrArg _ (by omega)
      · rcases hcond with hc | hc
        · exact Or.inl (hpow ▸ hc)
        · exact Or.inr (by omega)
      · intro j hj
        cases j with
        | zero => simpa using h
        | succ j' =>
          have hj' := hmin j' (by omega)
          have : size / 1024 / 1024 ^ j' = size / 1024 ^ (j' + 1) := by
            rw [pow_succ, div_div, mul_comm]
          exact this ▸ hj'
    · push_neg at h
      exact ⟨0, Nat.zero_le _, by simpa using formatBytesLoop_stop size u (g + 1) h,
        Or.inl (by simpa using h), by omega⟩

/-- Evaluation rule for `toFixed2` from the floor characterisation. -/
theorem toFixed2_eval (x : ℚ) (n : Int) (h0 : 0 ≤ n)
    (h1 : (n : ℚ) ≤ x * 100 + 1 / 2) (h2 : x * 100 + 1 / 2 < n + 1) :
    toFixed2 x = toString (n / 100) ++ "." ++ padTwo (n % 100) := by
  have hfl : ⌊x * 100 + 1 / 2⌋ = n := by
    rw [Int.floor_eq_iff]
    exact ⟨h1, h2⟩
  simp only [toFixed2, hfl]
  rw [if_neg (by omega)]

/-- C6 counterexample: at the byte count `1024^5` the loop runs out of
units and renders `"1024.00 TB"` — the scaled value equals 1024, and no
unit among B..TB scales this count below 1024, contradicting the claimed
for-every-byte-count unit-selection property. -/
theorem formatBytes_unit_overflow :
    formatBytesPair ((1024 : ℚ) ^ 5) = (1024, 4) ∧
    ¬ (formatBytesPair ((1024 : ℚ) ^ 5)).1 < 1024 ∧
    (∀ k : Nat, k ≤ 4 → ¬ ((1024 : ℚ) ^ 5 / 1024 ^ k < 1024)) ∧
    formatBytes ((1024 : ℚ) ^ 5) = "1024.00 TB" := by
  have h1 : ((1024 : ℚ) ^ 5) / 1024 = 1024 ^ 4 := by
    rw [pow_succ, mul_div_cancel_right₀]
    norm_num
  have h2 : ((1024 : ℚ) ^ 4) / 1024 = 1024 ^ 3 := by
    rw [pow_succ, mul_div_cancel_right₀]
    norm_num
  have h3 : ((1024 : ℚ) ^ 3) / 1024 = 1024 ^ 2 := by
    rw [pow_succ, mul_div_cancel_right₀]
    norm_num
  have h4 : ((1024 : ℚ) ^ 2) / 1024 = 1024 := by
    rw [pow_two, mul_div_cancel_right₀]
    norm_num
  have hpair : formatBytesPair ((1024 : ℚ) ^ 5) = (1024, 4) := by
    rw [formatBytesPair,
      formatBytesLoop_step _ _ _ (by norm_num), h1,
      formatBytesLoop_step _ _ _ (by norm_num), h2,
      formatBytesLoop_step _ _ _ (by norm_num), h3,
      formatBytesLoop_step _ _ _ (by norm_num), h4]
    rfl
  refine ⟨hpair, by rw [hpair]; norm_num, ?_, ?_⟩
  · intro k hk
    interval_cases k <;> simp [h1, h2, h3, h4] <;> norm_num
  · have hloop : formatBytesLoop ((1024 : ℚ) ^ 5) 0 4 = (1024, 4) := hpair
    simp only [formatBytes, hloop]
    rw [toFixed2_eval 1024 102400 (by norm_num) (by norm_num) (by norm_num)]
    decide

/-- C6 (amended): for every byte count strictly below `1024^5`, the
formatter scales into the first unit among B, KB, MB, GB, TB whose scaled
value is below 1024 (every smaller unit scales to at least 1024), renders
that scaled value with `toFixed(2)`, and does not rescale a value already
below 1024; `formatFileSize` is the identical second copy, and
`formatBytes 1536 = "1.50 KB"`, `formatBytes 1073741824 = "1.00 GB"`.
(For byte counts of `1024^5` and above, the loop stops at TB with a scaled
value of at least 1024 — see the counterexample theorem.) -/
theorem formatBytes_unit_selection (b : Nat) (hb : b < 1024 ^ 5) :
    (∃ k : Nat, k ≤ 4 ∧
      formatBytesPair (b : ℚ) = ((b : ℚ) / 1024 ^ k, k) ∧
      (b : ℚ) / 1024 ^ k < 1024 ∧
      (∀ j : Nat, j < k → 1024 ≤ (b : ℚ) / 1024 ^ j) ∧
      formatBytes (b : ℚ) = toFixed2 ((b : ℚ) / 1024 ^ k) ++ " " ++ units.getD k "") ∧
    ((b : ℚ) < 1024 → formatBytes (b : ℚ) = toFixed2 (b : ℚ) ++ " B") ∧
    (∀ q : ℚ, formatFileSize q = formatBytes q) ∧
    formatBytes (1536 : ℚ) = "1.50 KB" ∧
    formatBytes (1073741824 : ℚ) = "1.00 GB" := by
  refine ⟨?_, ?_, fun q => rfl, ?_, ?_⟩
  · obtain ⟨k, hk, heq, hcond, hmin⟩ := formatBytesLoop_exists 4 (b : ℚ) 0
    have hlt : (b : ℚ) / 1024 ^ k < 1024 := by
      rcases hcond with hc | hc
      · exact hc
      · rw [hc]
        rw [div_lt_iff₀ (by positivity)]
        calc (b : ℚ) < 1024 ^ 5 := by exact_mod_cast hb
          _ = 1024 * 1024 ^ 4 := by ring
    refine ⟨k, hk, by simpa [formatBytesPair] using heq, hlt, hmin, ?_⟩
    simp only [formatBytes, formatBytesPair] at heq ⊢
    rw [heq]
    simp
  · intro hlt
    have hstop := formatBytesLoop_stop (b : ℚ) 0 4 hlt
    simp only [formatBytes, hstop]
    rw [String.append_assoc]
    rfl
  · have hdiv : (1536 : ℚ) / 1024 = 3 / 2 := by norm_num
    have hpair : formatBytesLoop (1536 : ℚ) 0 4 = (3 / 2, 1) := by
      rw [formatBytesLoop_step _ _ _ (by norm_num), hdiv,
        formatBytesLoop_stop _ _ _ (by norm_num)]
    simp only [formatBytes, hpair]
    rw [toFixed2_eval (3 / 2) 150 (by norm_num) (by norm_num) (by norm_num)]
    decide
  · have d1 : (1073741824 : ℚ) / 1024 = 1048576 := by norm_num
    have d2 : (1048576 : ℚ) / 1024 = 1024 := by norm_num
    have d3 : (1024 : ℚ) / 1024 = 1 := by norm_num
    have hpair : formatBytesLoop (1073741824 : ℚ) 0 4 = (1, 3) := by
      rw [formatBytesLoop_step _ _ _ (by norm_num), d1,
        formatBytesLoop_step _ _ _ (by norm_num), d2,
        formatBytesLoop_step _ _ _ (by norm_num), d3,
        formatBytesLoop_stop _ _ _ (by norm_num)]
    simp only [formatBytes, hpair]
    rw [toFixed2_eval 1 100 (by norm_num) (by norm_num) (by norm_num)]
    decide

/-- Witness for C6 (amended) at the byte count 1536. -/
theorem formatBytes_unit_selection_witness :
    (∃ k : Nat, k ≤ 4 ∧
      formatBytesPair ((1536 : Nat) : ℚ) = (((1536 : Nat) : ℚ) / 1024 ^ k, k) ∧
      ((1536 : Nat) : ℚ) / 1024 ^ k < 1024 ∧
      (∀ j : Nat, j < k → 1024 ≤ ((1536 : Nat) : ℚ) / 1024 ^ j) ∧
      formatBytes ((1536 : Nat) : ℚ) =
        toFixed2 (((1536 : Nat) : ℚ) / 1024 ^ k) ++ " " ++ units.getD k "") ∧
    (((1536 : Nat) : ℚ) < 1024 →
      formatBytes ((1536 : Nat) : ℚ) = toFixed2 ((1536 : Nat) : ℚ) ++ " B") ∧
    (∀ q : ℚ, formatFileSize q = formatBytes q) ∧
    formatBytes (1536 : ℚ) = "1.50 KB" ∧
    formatBytes (1073741824 : ℚ) = "1.00 GB" :=
  formatBytes_unit_selection 1536 (by norm_num)

/-- C5: an unknown tool name is rejected by the default case of the dispatcher with
`Unknown tool: ...` (reported by the protocol layer as a failure response)
and no tool handler runs; a registered tool with an action outside its
enumerated set is rejected by the switch default of that tool as an `isError`
response naming the action. In both cases the command list is empty — no
external process is invoked — for every possible set of handler bodies. -/
theorem unknown_tool_action_rejected (handlers : String → String → RunResult)
    (tool action : String) :
    (tool ∉ toolNames →
      callTool handlers tool action = ⟨.thrown ("Unknown tool: " ++ tool), []⟩ ∧
      protocolResponse (callTool handlers tool action) =
        ⟨.failure ("Unknown tool: " ++ tool), []⟩) ∧
    (tool ∈ toolNames → action ∉ actionsOf tool →
      callTool handlers tool action =
        ⟨.failure (failTagOf tool ++ "Unknown action: " ++ action), []⟩) := by
  constructor
  · intro h
    have hc : callTool handlers tool action =
        ⟨.thrown ("Unknown tool: " ++ tool), []⟩ := by
      rw [callTool, if_neg h]
    exact ⟨hc, by rw [hc]; rfl⟩
  · intro ht ha
    rw [callTool, if_pos ht, runTool, if_neg ha]

/-- Witness for C5: the unregistered tool `clipboard` and the unknown
network action `open_firewall` are both rejected without commands. -/
theorem unknown_tool_action_rejected_witness :
    (callTool (fun _ _ => ⟨.success "", []⟩) "clipboard" "read" =
      ⟨.thrown ("Unknown tool: " ++ "clipboard"), []⟩ ∧
     protocolResponse (callTool (fun _ _ => ⟨.success "", []⟩) "clipboard" "read") =
      ⟨.failure ("Unknown tool: " ++ "clipboard"), []⟩) ∧
    callTool (fun _ _ => ⟨.success "", []⟩) "network" "open_firewall" =
      ⟨.failure (failTagOf "network" ++ "Unknown action: " ++ "open_firewall"), []⟩ :=
  ⟨(unknown_tool_action_rejected (fun _ _ => ⟨.success "", []⟩) "clipboard"
      "read").1 (by decide),
   (unknown_tool_action_rejected (fun _ _ => ⟨.success "", []⟩) "network"
      "open_firewall").2 (by decide) (by decide)⟩

/-- C8: with neither `process_id` nor `process_name` supplied,
`kill_process` and `get_process_details` throw the missing-parameter error,
which the catch of `run` surfaces as an `isError` response; the command list is
empty, so no external command is executed for the request. -/
theorem missing_process_identifier (exec : Exec)
    (other : String → ToolResponse × List String) :
    killProcess exec none none =
      (.thrown ("Failed to kill process: " ++
        "Either process_id or process_name must be provided"), []) ∧
    getProcessDetails exec none none =
      (.thrown ("Failed to get process details: " ++
        "Either process_id or process_name must be provided"), []) ∧
    processManagerRun exec other ⟨"kill_process", none, none⟩ =
      ⟨.failure ("❌ Process management operation failed: " ++
        ("Failed to kill process: " ++
          "Either process_id or process_name must be provided")), []⟩ ∧
    processManagerRun exec other ⟨"get_process_details", none, none⟩ =
      ⟨.failure ("❌ Process management operation failed: " ++
        ("Failed to get process details: " ++
          "Either process_id or process_name must be provided")), []⟩ :=
  ⟨rfl, rfl, rfl, rfl⟩

/-- C9: a `read_file` request on a path whose stat reports a directory
fails with `Path is a directory, not a file`, and on a file strictly larger
than `1024 * 1024` bytes fails reporting it too large; in both cases the
read-path list is empty (the content is never read) and the `run` wrapper
returns an `isError` response carrying the message. -/
theorem read_file_guards (fsStat : String → Except String FileStat)
    (fsRead : String → Except String String)
    (other : String → ToolResponse × List String)
    (p : String) (st : FileStat) (h : fsStat p = .ok st) :
    (st.isDirectory = true →
      readFile fsStat fsRead p =
        (.thrown ("Cannot read file " ++ p ++
          ": Path is a directory, not a file"), []) ∧
      fileSystemRun fsStat fsRead other "read_file" p =
        ⟨.failure ("❌ File system operation failed: " ++
          ("Cannot read file " ++ p ++ ": Path is a directory, not a file")), []⟩) ∧
    (st.isDirectory = false → 1024 * 1024 < st.size →
      readFile fsStat fsRead p =
        (.thrown ("Cannot read file " ++ p ++
          ": File too large (>1MB). Use file info to check size first."), []) ∧
      fileSystemRun fsStat fsRead other "read_file" p =
        ⟨.failure ("❌ File system operation failed: " ++
          ("Cannot read file " ++ p ++
            ": File too large (>1MB). Use file info to check size first.")), []⟩) := by
  constructor
  · intro hdir
    have hr : readFile fsStat fsRead p =
        (.thrown ("Cannot read file " ++ p ++
          ": Path is a directory, not a file"), []) := by
      rw [readFile, h]
      simp [hdir]
    refine ⟨hr, ?_⟩
    rw [fileSystemRun]
    simp [hr]
  · intro hdir hsize
    have hr : readFile fsStat fsRead p =
        (.thrown ("Cannot read file " ++ p ++
          ": File too large (>1MB). Use file info to check size first."), []) := by
      rw [readFile, h]
      simp [hdir, hsize]
    refine ⟨hr, ?_⟩
    rw [fileSystemRun]
    simp [hr]

/-- Witness for C9: a directory path and a 2 MiB file are both rejected
without any read. -/
theorem read_file_guards_witness :
    (readFile dirStatFS emptyReadFS "C:\\Windows" =
      (.thrown ("Cannot read file " ++ "C:\\Windows" ++
        ": Path is a directory, not a file"), []) ∧
     fileSystemRun dirStatFS emptyReadFS (fun _ => (.success "", []))
        "read_file" "C:\\Windows" =
      ⟨.failure ("❌ File system operation failed: " ++
        ("Cannot read file " ++ "C:\\Windows" ++
          ": Path is a directory, not a file")), []⟩) ∧
    (readFile bigStatFS emptyReadFS "C:\\big.bin" =
      (.thrown ("Cannot read file " ++ "C:\\big.bin" ++
        ": File too large (>1MB). Use file info to check size first."), []) ∧
     fileSystemRun bigStatFS emptyReadFS (fun _ => (.success "", []))
        "read_file" "C:\\big.bin" =
      ⟨.failure ("❌ File system operation failed: " ++
        ("Cannot read file " ++ "C:\\big.bin" ++
          ": File too large (>1MB). Use file info to check size first.")), []⟩) :=
  ⟨(read_file_guards dirStatFS emptyReadFS (fun _ => (.success "", []))
      "C:\\Windows" ⟨true, 0⟩ rfl).1 rfl,
   (read_file_guards bigStatFS emptyReadFS (fun _ => (.success "", []))
      "C:\\big.bin" ⟨false, 2097152⟩ rfl).2 rfl (by norm_num)⟩

/-- C10: `process_id = 0` is falsy, so both handlers treat the identifier
as absent: with a non-empty `process_name` they behave exactly as if only
the name had been supplied (and the executed command targets the name);
with no name they throw the missing-parameter error even though
`process_id` was supplied. -/
theorem zero_pid_treated_as_absent (exec : Exec) (name : String)
    (h : name ≠ "") :
    killProcess exec (some 0) (some name) = killProcess exec none (some name) ∧
    getProcessDetails exec (some 0) (some name) =
      getProcessDetails exec none (some name) ∧
    (killProcess exec (some 0) (some name)).2 =
      [psCommand ("Stop-Process -Name \"" ++ name ++ "\" -Force -ErrorAction Stop")] ∧
    killProcess exec (some 0) none =
      (.thrown ("Failed to kill process: " ++
        "Either process_id or process_name must be provided"), []) ∧
    getProcessDetails exec (some 0) none =
      (.thrown ("Failed to get process details: " ++
        "Either process_id or process_name must be provided"), []) := by
  have hs : strTruthy (some name) = true := by
    simp [strTruthy, h]
  refine ⟨rfl, rfl, ?_, rfl, rfl⟩
  rw [killProcess]
  simp only [numTruthy, hs]
  simp only [if_true]
  simp only [Option.getD_some]
  cases exec (psCommand ("Stop-Process -Name \"" ++ name ++
      "\" -Force -ErrorAction Stop")) <;> rfl

/-- Witness for C10 with the name `notepad` and an always-succeeding
invoker. -/
theorem zero_pid_treated_as_absent_witness :
    killProcess (fun _ => .ok "") (some 0) (some "notepad") =
      killProcess (fun _ => .ok "") none (some "notepad") ∧
    getProcessDetails (fun _ => .ok "") (some 0) (some "notepad") =
      getProcessDetails (fun _ => .ok "") none (some "notepad") ∧
    (killProcess (fun _ => .ok "") (some 0) (some "notepad")).2 =
      [psCommand ("Stop-Process -Name \"" ++ "notepad" ++
        "\" -Force -ErrorAction Stop")] ∧
    killProcess (fun _ => .ok "") (some 0) none =
      (.thrown ("Failed to kill process: " ++
        "Either process_id or process_name must be provided"), []) ∧
    getProcessDetails (fun _ => .ok "") (some 0) none =
      (.thrown ("Failed to get process details: " ++
        "Either process_id or process_name must be provided"), []) :=
  zero_pid_treated_as_absent (fun _ => .ok "") "notepad" (by decide)

end WinSysMcpClaims
